import Mathlib

/-!
Verification of the no-array-fill-with-reference-type type classifier.

A shallow embedding of `src/rules/no-array-fill-with-reference-type.js`,
the static classifier that decides whether an expression evaluates to a
reference-type value (heap-allocated, aliasable) or a value-type value
(primitive).  The embedding models:

* the AST node shapes the classifier inspects (`Node`);
* the scope-analysis results it consults (`Scope`, `Variable`, `Def`,
  `DefNode`), where the node of a definition may be a `VariableDeclarator`
  (carrying its parent declaration kind and optional initializer) or any
  other node;
* the rule options (`Options`, defaulting both toggles to `true` as the
  source `DEFAULTS` object does);
* the classification functions `isReferenceType` /
  `isIdentifierReferenceType` and the label helpers `getType` /
  `getNewExpressionType`.

JavaScript runtime behaviour that the source can actually exhibit is made
explicit: a thrown `TypeError` (from `variable?.defs[0].node` when the
`defs` array of the resolved variable is empty — the optional chain guards only
`variable`, not `defs[0]`) is `Except.error RunErr.typeError`, and the
unbounded mutual recursion through identifier bindings is made total with
a fuel parameter, `Except.error RunErr.outOfFuel` marking fuel exhaustion.
Any terminating run of the JavaScript code is reproduced exactly by every
sufficiently large fuel.
-/

namespace NoArrayFill

/-- The AST node shapes distinguished by the classifier.  The source only
ever inspects `node.type`, the `regex` field of a `Literal`, the `name`
of an `Identifier`, and `callee.name` / the source text of the callee of
a `NewExpression` or `CallExpression`, so only those carry data here.
The value of a `Literal` (number, string, boolean, null, bigint) is
never read by the source, so it is not modelled; `regex` is the
truthiness of the `regex` field of the literal.  `calleeText` models
`context.sourceCode.getText(node.callee)`.  `otherNode` stands for any
node kind the source does not name. -/
inductive Node where
  | literal (regex : Bool)
  | templateLiteral (expressions : List Node)
  | identifier (name : String)
  | objectExpression
  | arrayExpression
  | newExpression (calleeName : Option String) (calleeText : String)
  | callExpression (calleeName : Option String)
  | functionExpression
  | arrowFunctionExpression
  | classExpression
  | otherNode

/-- The `name` field as read off an arbitrary node (`node.name` in the
source): present only on identifiers, `undefined` (`none`) otherwise. -/
def Node.name? : Node → Option String
  | .identifier n => some n
  | _ => none

/-- The node recorded in a scope-analysis definition (`def.node`): either
a `VariableDeclarator` — the source reads its `parent.kind` (the
`var`/`let`/`const` keyword of the enclosing declaration) and its `init`
expression — or some other node (e.g. a function declaration), which the
source feeds back to `isReferenceType` unchanged. -/
inductive DefNode where
  | variableDeclarator (parentKind : String) (init : Option Node)
  | plain (node : Node)

/-- One entry of `variable.defs`; its `node` may be absent. -/
structure Def where
  node : Option DefNode

/-- One entry of `scope.variables`. -/
structure Variable where
  name : String
  defs : List Def

/-- The scope object returned by `context.sourceCode.getScope(node)`.
ESLint always returns a scope whose `variables` is an array, so the list
is not optional; the defensive `!variables || variables.length === 0`
check in the source is therefore just an emptiness test. -/
structure Scope where
  vars : List Variable

/-- The rule options after the `{...DEFAULTS, ...context.options[0]}`
merge in the source; field defaults are the source `DEFAULTS`. -/
structure Options where
  canFillWithFunction : Bool := true
  canFillWithRegexp : Bool := true
  deriving DecidableEq, Repr

/-- The resolution context a classification runs in: the scope returned
for each node, and the merged options. -/
structure Context where
  getScope : Node → Scope
  options : Options

/-- A JavaScript-level outcome the embedding must distinguish from an
ordinary boolean verdict: a thrown `TypeError`, or exhaustion of the fuel
that makes the unbounded source recursion a total Lean function. -/
inductive RunErr where
  | typeError
  | outOfFuel
  deriving DecidableEq, Repr

/-- Modelled from the spec: `isFunction` is imported from
`./ast/index.js`, which is not among the sources; the spec (§3, §4.1
rule 7) names `FunctionLiteral` and `ArrowFunctionLiteral` as the
function shapes the classifier recognises. -/
def isFunction : Node → Bool
  | .functionExpression => true
  | .arrowFunctionExpression => true
  | _ => false

/-- Modelled from the spec: `isRegexLiteral` is imported from
`./ast/index.js`, which is not among the sources; the spec (§3) says a
`Literal` carries an "is this a regex literal" flag, and the earlier
in-tree revision of the rule tests `node.regex !== undefined`. -/
def isRegexLiteral : Node → Bool
  | .literal r => r
  | _ => false

/-- The test that `node.type` is `CallExpression` and `node.callee.name`
is `Symbol` (source line 161). -/
def isSymbolCall : Node → Bool
  | .callExpression (some name) => name == "Symbol"
  | _ => false

/-- The test that `node.type` is `NewExpression` and `node.callee.name`
is `RegExp` (source line 175). -/
def isNewRegexp : Node → Bool
  | .newExpression (some name) _ => name == "RegExp"
  | _ => false

/-- `isReferenceType(node, context)` (source lines 127–182), fuel-indexed.
The sequential source `if` chain on `node.type` becomes a match; the
`Identifier` case inlines the body of `isIdentifierReferenceType`
(source lines 190–214, see the standalone definition below and
`isReferenceType_identifier_eq`), and every catch-all node runs the
Symbol-call special case, the function toggle, and the `new RegExp`
toggle before the final `return true`.  Note the faithful optional-chain
semantics: with a resolved variable whose `defs` is empty,
`variable?.defs[0].node` throws (`RunErr.typeError`). -/
def isReferenceType : Nat → Context → Option Node → Except RunErr Bool
  | 0, _, _ => .error .outOfFuel
  | fuel + 1, ctx, node? =>
    match node? with
    | none => .ok false
    | some node =>
      match node with
      | .literal r =>
        if !ctx.options.canFillWithRegexp && isRegexLiteral (.literal r) then .ok true
        else .ok false
      | .templateLiteral _ => .ok false
      | .identifier name =>
        match (ctx.getScope (.identifier name)).vars.find? fun v => v.name == name with
        | none => .ok false
        | some v =>
          match v.defs.head? with
          | none => .error .typeError
          | some d =>
            match d.node with
            | none => .ok false
            | some (.variableDeclarator parentKind init) =>
              if parentKind == "let" then .ok false
              else isReferenceType fuel ctx init
            | some (.plain n) => isReferenceType fuel ctx (some n)
      | n =>
        if isSymbolCall n && (ctx.getScope n).vars.isEmpty then .ok false
        else if ctx.options.canFillWithFunction && isFunction n then .ok false
        else if ctx.options.canFillWithRegexp && isNewRegexp n then .ok false
        else .ok true

/-- `isIdentifierReferenceType(node, context)` (source lines 190–214) as
a standalone function over an arbitrary node, comparing `v.name` against
`node.name` exactly as `variables.find(v => v.name === node.name)` does;
its recursive calls re-enter `isReferenceType` with the given fuel. -/
def isIdentifierReferenceType (fuel : Nat) (ctx : Context) (node : Node) :
    Except RunErr Bool :=
  match (ctx.getScope node).vars.find? fun v => some v.name == node.name? with
  | none => .ok false
  | some v =>
    match v.defs.head? with
    | none => .error .typeError
    | some d =>
      match d.node with
      | none => .ok false
      | some (.variableDeclarator parentKind init) =>
        if parentKind == "let" then .ok false
        else isReferenceType fuel ctx init
      | some (.plain n) => isReferenceType fuel ctx (some n)

/-- The `Identifier` case of `isReferenceType` is exactly
`isIdentifierReferenceType` at one unit less fuel, matching the mutual
recursion of the source. -/
theorem isReferenceType_identifier_eq (fuel : Nat) (ctx : Context) (name : String) :
    isReferenceType (fuel + 1) ctx (some (Node.identifier name)) =
      isIdentifierReferenceType fuel ctx (Node.identifier name) := rfl

/-- The first line of a source-text snippet: the source applies `split`
at newline characters and keeps element 0 (source line 112). -/
def firstLine (s : String) : String := (s.splitOn "\n").headD ""

/-- The first match of the JavaScript regex `/\S+/` on a string: the
first maximal run of non-whitespace characters, or `none` when the
string is all whitespace (source line 112). -/
def jsMatchNonSpace (s : String) : Option String :=
  let run := (s.toList.dropWhile Char.isWhitespace).takeWhile fun c => !c.isWhitespace
  if run.isEmpty then none else some (String.mk run)

/-- `getNewExpressionType(fillArgument, context)` (source lines 104–120),
given the `name` field of the constructor callee and its source text.  The
source tests the name with JavaScript truthiness, so an absent name and
an empty-string name both fall back to lexing the source text of the callee,
truncated to 32 characters. -/
def getNewExpressionType (calleeName : Option String) (calleeText : String) : String :=
  let name := calleeName.getD ""
  if !name.isEmpty then "new " ++ name ++ "()"
  else
    match jsMatchNonSpace (firstLine calleeText) with
    | some m => "new " ++ m.take 32
    | none => "new ()"

/-- `getType(fillArgument, context)` (source lines 60–96): the diagnostic
type label.  The `default` case labels a regex literal `RegExp` and an
identifier `variable (<name>)`; everything else unnamed yields the empty
label. -/
def getType : Node → String
  | .objectExpression => "Object"
  | .arrayExpression => "Array"
  | .newExpression calleeName calleeText => getNewExpressionType calleeName calleeText
  | .functionExpression => "Function"
  | .arrowFunctionExpression => "Function"
  | .literal r => if r then "RegExp" else ""
  | .identifier name => "variable (" ++ name ++ ")"
  | _ => ""

/-- The Classification Verdict of spec §3: the boolean reference-type
flag plus the diagnostic type label. -/
structure Verdict where
  isRef : Bool
  typeLabel : String
  deriving DecidableEq, Repr

/-- The full classification of spec §4.1 assembled from the two source
functions: the boolean from `isReferenceType` and the label from
`getType` (the consumer rule at source lines 36–48 computes exactly
these two on the fill argument; an absent node gets the empty label). -/
def classify (fuel : Nat) (ctx : Context) (node? : Option Node) :
    Except RunErr Verdict :=
  match isReferenceType fuel ctx node? with
  | .error e => .error e
  | .ok b =>
    match node? with
    | none => .ok ⟨b, ""⟩
    | some n => .ok ⟨b, getType n⟩

/-- The single recursion step of the classifier, read off the
`Identifier` case of `isReferenceType`: `some next` when classifying the
node recurses into `next` (a fixed `VariableDeclarator` initializer, or a
non-declarator definition node), `none` when it returns without
recursing (including the throwing empty-`defs` case).  Every other node
shape never recurses. -/
def resolveStep (ctx : Context) (node : Node) : Option (Option Node) :=
  match node with
  | .identifier name =>
    match (ctx.getScope (.identifier name)).vars.find? fun v => v.name == name with
    | none => none
    | some v =>
      match v.defs.head? with
      | none => none
      | some d =>
        match d.node with
        | none => none
        | some (.variableDeclarator parentKind init) =>
          if parentKind == "let" then none
          else some init
        | some (.plain n) => some (some n)
  | _ => none

/-- The identifier-indirection chain starting at a node reaches a
non-recursive case within `k` steps of `resolveStep`. -/
def boundsChain (k : Nat) (ctx : Context) (node? : Option Node) : Bool :=
  match node? with
  | none => true
  | some n =>
    match resolveStep ctx n with
    | none => true
    | some next =>
      match k with
      | 0 => false
      | k + 1 => boundsChain k ctx next

/-- The classification of a node diverges: every fuel is exhausted, so
the unbounded JavaScript recursion it models never returns. -/
def classifyDiverges (ctx : Context) (node? : Option Node) : Prop :=
  ∀ fuel, isReferenceType fuel ctx node? = .error .outOfFuel

/-! ## Concrete resolution contexts

Each models the scope analysis of a small JavaScript program, with
default options unless stated otherwise. -/

/-- `var p = {};` — `p` is a reassignable (`var`) binding whose
initializer is an object literal. -/
def ctxVarObject : Context :=
  ⟨fun _ => ⟨[⟨"p", [⟨some (.variableDeclarator "var" (some .objectExpression))⟩]⟩]⟩, {}⟩

/-- `let q = {};` — `q` is a reassignable (`let`) binding whose
initializer is an object literal. -/
def ctxLetObject : Context :=
  ⟨fun _ => ⟨[⟨"q", [⟨some (.variableDeclarator "let" (some .objectExpression))⟩]⟩]⟩, {}⟩

/-- `const p = {};` — `p` is a fixed (`const`) binding whose initializer
is an object literal. -/
def ctxConstObject : Context :=
  ⟨fun _ => ⟨[⟨"p", [⟨some (.variableDeclarator "const" (some .objectExpression))⟩]⟩]⟩, {}⟩

/-- A scope containing a variable named `x` whose `defs` array is empty
(as ESLint produces e.g. for a `/* global x */` comment directive). -/
def ctxEmptyDefsX : Context := ⟨fun _ => ⟨[⟨"x", []⟩]⟩, {}⟩

/-- Same shape as `ctxEmptyDefsX` for the variable `y`. -/
def ctxEmptyDefsY : Context := ⟨fun _ => ⟨[⟨"y", []⟩]⟩, {}⟩

/-- A scope whose own variable list does not contain `z` (its
declaration, if any, lives in an enclosing scope), with one unrelated
variable present. -/
def ctxOuterOnly : Context := ⟨fun _ => ⟨[⟨"other", []⟩]⟩, {}⟩

/-- `const a = a;` — a syntactically valid self-referential binding:
scope analysis resolves the `a` in the initializer to the very variable being
declared (at runtime this is a temporal-dead-zone error, but the static
classifier still walks it). -/
def ctxCyclic : Context :=
  ⟨fun _ => ⟨[⟨"a", [⟨some (.variableDeclarator "const" (some (.identifier "a")))⟩]⟩]⟩, {}⟩

/-- A scope with at least one variable, around a `Symbol(...)` call. -/
def ctxSymNonempty : Context := ⟨fun _ => ⟨[⟨"foo", []⟩]⟩, {}⟩

/-- A scope with no variables at all, around a `Symbol(...)` call. -/
def ctxSymEmpty : Context := ⟨fun _ => ⟨[]⟩, {}⟩

/-- The scope of `const p = /pattern/;` — a fixed binding whose
initializer is a regex literal. -/
def regexScope : Scope :=
  ⟨[⟨"p", [⟨some (.variableDeclarator "const" (some (.literal true)))⟩]⟩]⟩

/-- `const p = /pattern/;` under the default options. -/
def ctxRegexDefault : Context := ⟨fun _ => regexScope, {}⟩

/-- `const p = /pattern/;` with `canFillWithRegexp: false`. -/
def ctxRegexStrict : Context := ⟨fun _ => regexScope, { canFillWithRegexp := false }⟩

/-! ## The claims -/

/-- C1, counterexample: the claim says every reassignable binding is
classified value-type unconditionally, but for `var p = {};` (a
reassignable binding, since `var` bindings may be rebound after
initialization) the classifier recurses into the initializer — the
guard in the source only tests that `definitionNode.parent.kind` equals
`let` — and
returns reference-type. -/
theorem c1_counterexample :
    isReferenceType 3 ctxVarObject (some (Node.identifier "p")) = .ok true := rfl

/-- C1, amended: an identifier resolving to a binding declared with the
reassignable kind `let` is classified value-type unconditionally,
whatever the initializer. -/
theorem c1_amended (f : Nat) (ctx : Context) (name : String) (v : Variable) (d : Def)
    (init : Option Node)
    (hv : (ctx.getScope (Node.identifier name)).vars.find? (fun w => w.name == name) = some v)
    (hd : v.defs.head? = some d)
    (hn : d.node = some (DefNode.variableDeclarator "let" init)) :
    isReferenceType (f + 1) ctx (some (Node.identifier name)) = .ok false := by
  simp [isReferenceType, hv, hd, hn]

/-- C1, witness: `let q = {}; q` classifies value-type even though the
initializer is an object literal. -/
theorem c1_witness :
    isReferenceType 1 ctxLetObject (some (Node.identifier "q")) = .ok false :=
  c1_amended 0 ctxLetObject "q"
    ⟨"q", [⟨some (.variableDeclarator "let" (some .objectExpression))⟩]⟩
    ⟨some (.variableDeclarator "let" (some .objectExpression))⟩
    (some .objectExpression) rfl rfl rfl

/-- C2, counterexample: the claim says a `Symbol(...)` call classifies
value-type also when the enclosing scope has at least one variable; in
fact the guard in the source only returns early (value-type) when the
variable list of the scope is empty, and otherwise falls through to the final
`return true`, giving reference-type. -/
theorem c2_counterexample :
    isReferenceType 1 ctxSymNonempty (some (Node.callExpression (some "Symbol"))) =
      .ok true := rfl

/-- C2, amended: a call whose callee is the identifier `Symbol`
classifies value-type exactly when the variable list of the enclosing
scope is empty (the unresolved-global heuristic); with at least one variable
in scope it classifies reference-type, under every configuration. -/
theorem c2_amended (f : Nat) (ctx : Context) :
    ((ctx.getScope (Node.callExpression (some "Symbol"))).vars.isEmpty = true →
      isReferenceType (f + 1) ctx (some (Node.callExpression (some "Symbol"))) = .ok false) ∧
    ((ctx.getScope (Node.callExpression (some "Symbol"))).vars.isEmpty = false →
      isReferenceType (f + 1) ctx (some (Node.callExpression (some "Symbol"))) = .ok true) := by
  constructor <;> intro h <;> simp [isReferenceType, isSymbolCall, isFunction, isNewRegexp, h]

/-- C2, witness: in a scope with no variables, a `Symbol(...)` call
classifies value-type. -/
theorem c2_amended_witness :
    isReferenceType 1 ctxSymEmpty (some (Node.callExpression (some "Symbol"))) = .ok false :=
  (c2_amended 0 ctxSymEmpty).1 rfl

/-- C3: the claim says the classifier is total and returns a verdict
even for an identifier resolving to a variable whose definition list is
empty; the code instead throws there — `variable?.defs[0].node` only
guards `variable` with the optional chain, so with `defs` empty it reads
`.node` off `undefined` and raises a `TypeError` (the earlier in-tree
revision of the rule guards this very access with `defs[0]?.node`, and
the line after tests `!definitionNode`, so the spec states the evident
intent and the code slips). -/
theorem c3_throws :
    isIdentifierReferenceType 0 ctxEmptyDefsX (Node.identifier "x") =
        .error .typeError ∧
      isReferenceType 1 ctxEmptyDefsX (some (Node.identifier "x")) =
        .error .typeError := ⟨rfl, rfl⟩

/-- C4, counterexample: for `const p = {}; p` the boolean verdict is
reference-type as the claim says, but the label is `variable (p)`, not
the label `Object` of the initializer — `getType` never unwraps
identifiers — so the full verdict does not equal the verdict of the
initializer verbatim. -/
theorem c4_counterexample :
    classify 3 ctxConstObject (some (Node.identifier "p")) =
        .ok ⟨true, "variable (p)"⟩ ∧
      classify 1 ctxConstObject (some Node.objectExpression) = .ok ⟨true, "Object"⟩ ∧
      (("variable (p)" : String) == "Object") = false := ⟨rfl, rfl, rfl⟩

/-- C4, amended: for an identifier resolving to a fixed (`const`)
binding with an initializer, the boolean verdict equals the verdict of
classifying the initializer, but the label stays `variable (<name>)`
rather than the label of the initializer. -/
theorem c4_amended (f : Nat) (ctx : Context) (name : String) (v : Variable) (d : Def)
    (init : Option Node)
    (hv : (ctx.getScope (Node.identifier name)).vars.find? (fun w => w.name == name) = some v)
    (hd : v.defs.head? = some d)
    (hn : d.node = some (DefNode.variableDeclarator "const" init)) :
    isReferenceType (f + 1) ctx (some (Node.identifier name)) =
        isReferenceType f ctx init ∧
      getType (Node.identifier name) = "variable (" ++ name ++ ")" := by
  refine ⟨?_, rfl⟩
  simp [isReferenceType, hv, hd, hn]

/-- C4, witness: for `const p = {}; p` the boolean verdict defers to the
initializer and the label is `variable (p)`. -/
theorem c4_witness :
    isReferenceType 2 ctxConstObject (some (Node.identifier "p")) =
        isReferenceType 1 ctxConstObject (some Node.objectExpression) ∧
      getType (Node.identifier "p") = "variable (" ++ "p" ++ ")" :=
  c4_amended 1 ctxConstObject "p"
    ⟨"p", [⟨some (.variableDeclarator "const" (some .objectExpression))⟩]⟩
    ⟨some (.variableDeclarator "const" (some .objectExpression))⟩
    (some .objectExpression) rfl rfl rfl

/-- C5, counterexample: on the syntactically valid self-referential
binding `const a = a;` the classifier does not terminate — classifying
the identifier `a` re-enters itself through the initializer of the binding,
and every fuel is exhausted. -/
theorem c5_counterexample : classifyDiverges ctxCyclic (some (Node.identifier "a")) := by
  intro fuel
  induction fuel with
  | zero => rfl
  | succ f ih => exact ih

/-- A node whose classification does not recurse (`resolveStep` is
`none`) finishes at any positive fuel: the result is an ordinary verdict
or the `TypeError` of the empty-`defs` slip, never fuel exhaustion. -/
theorem isReferenceType_done (k : Nat) (ctx : Context) (n : Node)
    (h : resolveStep ctx n = none) :
    (∃ b, isReferenceType (k + 1) ctx (some n) = .ok b) ∨
      isReferenceType (k + 1) ctx (some n) = .error .typeError := by
  cases n with
  | literal r =>
    left
    by_cases hc : (!ctx.options.canFillWithRegexp && isRegexLiteral (.literal r)) = true
    · exact ⟨true, by simp [isReferenceType, hc]⟩
    · exact ⟨false, by simp [isReferenceType, hc]⟩
  | templateLiteral es => exact Or.inl ⟨false, rfl⟩
  | identifier name =>
    cases hf : (ctx.getScope (.identifier name)).vars.find? (fun v => v.name == name) with
    | none => exact Or.inl ⟨false, by simp [isReferenceType, hf]⟩
    | some v =>
      cases hh : v.defs.head? with
      | none => exact Or.inr (by simp [isReferenceType, hf, hh])
      | some d =>
        cases hn : d.node with
        | none => exact Or.inl ⟨false, by simp [isReferenceType, hf, hh, hn]⟩
        | some dn =>
          cases dn with
          | variableDeclarator parentKind init =>
            by_cases hk : (parentKind == "let") = true
            · exact Or.inl ⟨false, by simp [isReferenceType, hf, hh, hn, hk]⟩
            · simp [resolveStep, hf, hh, hn, hk] at h
          | plain n' => simp [resolveStep, hf, hh, hn] at h
  | objectExpression =>
    left
    refine ⟨true, ?_⟩
    simp [isReferenceType, isSymbolCall, isFunction, isNewRegexp]
  | arrayExpression =>
    left
    refine ⟨true, ?_⟩
    simp [isReferenceType, isSymbolCall, isFunction, isNewRegexp]
  | newExpression cn ct =>
    left
    by_cases hr : (ctx.options.canFillWithRegexp && isNewRegexp (.newExpression cn ct)) = true
    · exact ⟨false, by simp [isReferenceType, isSymbolCall, isFunction, hr]⟩
    · exact ⟨true, by simp [isReferenceType, isSymbolCall, isFunction, hr]⟩
  | callExpression cn =>
    left
    by_cases hs : (isSymbolCall (.callExpression cn) &&
        (ctx.getScope (.callExpression cn)).vars.isEmpty) = true
    · exact ⟨false, by simp [isReferenceType, isFunction, isNewRegexp, hs]⟩
    · exact ⟨true, by simp [isReferenceType, isFunction, isNewRegexp, hs]⟩
  | functionExpression =>
    left
    by_cases hfn : ctx.options.canFillWithFunction = true
    · exact ⟨false, by simp [isReferenceType, isSymbolCall, isFunction, isNewRegexp, hfn]⟩
    · exact ⟨true, by simp [isReferenceType, isSymbolCall, isFunction, isNewRegexp, hfn]⟩
  | arrowFunctionExpression =>
    left
    by_cases hfn : ctx.options.canFillWithFunction = true
    · exact ⟨false, by simp [isReferenceType, isSymbolCall, isFunction, isNewRegexp, hfn]⟩
    · exact ⟨true, by simp [isReferenceType, isSymbolCall, isFunction, isNewRegexp, hfn]⟩
  | classExpression =>
    left
    refine ⟨true, ?_⟩
    simp [isReferenceType, isSymbolCall, isFunction, isNewRegexp]
  | otherNode =>
    left
    refine ⟨true, ?_⟩
    simp [isReferenceType, isSymbolCall, isFunction, isNewRegexp]

/-- A node whose classification recurses (`resolveStep` is `some next`)
spends one unit of fuel and continues as the classification of `next`. -/
theorem isReferenceType_step (k : Nat) (ctx : Context) (n : Node) (next : Option Node)
    (h : resolveStep ctx n = some next) :
    isReferenceType (k + 1) ctx (some n) = isReferenceType k ctx next := by
  cases n
  case identifier name =>
    cases hf : (ctx.getScope (.identifier name)).vars.find? (fun v => v.name == name) with
    | none => simp [resolveStep, hf] at h
    | some v =>
      cases hh : v.defs.head? with
      | none => simp [resolveStep, hf, hh] at h
      | some d =>
        cases hn : d.node with
        | none => simp [resolveStep, hf, hh, hn] at h
        | some dn =>
          cases dn with
          | variableDeclarator parentKind init =>
            by_cases hk : (parentKind == "let") = true
            · simp [resolveStep, hf, hh, hn, hk] at h
            · simp [resolveStep, hf, hh, hn, hk] at h
              subst h
              simp [isReferenceType, hf, hh, hn, hk]
          | plain n' =>
            simp [resolveStep, hf, hh, hn] at h
            subst h
            simp [isReferenceType, hf, hh, hn]
  all_goals simp [resolveStep] at h

/-- C5, amended: one classification call is bounded by the depth of
identifier indirection — whenever the `resolveStep` chain from the node
reaches a non-recursive case within `k` steps, fuel `k + 1` suffices and
the call finishes (with a verdict, or with the empty-`defs` `TypeError`)
rather than exhausting its fuel; but on a self-referential or
mutually-referential binding chain, which is syntactically expressible
(`const a = a;`), the recursion never finishes. -/
theorem c5_amended (k : Nat) (ctx : Context) (node? : Option Node)
    (h : boundsChain k ctx node? = true) :
    (∃ b, isReferenceType (k + 1) ctx node? = .ok b) ∨
      isReferenceType (k + 1) ctx node? = .error .typeError := by
  induction k generalizing node? with
  | zero =>
    cases node? with
    | none => exact Or.inl ⟨false, rfl⟩
    | some n =>
      cases hs : resolveStep ctx n with
      | none => exact isReferenceType_done 0 ctx n hs
      | some next =>
        rw [boundsChain, hs] at h
        exact absurd h (by simp)
  | succ k ih =>
    cases node? with
    | none => exact Or.inl ⟨false, rfl⟩
    | some n =>
      cases hs : resolveStep ctx n with
      | none => exact isReferenceType_done (k + 1) ctx n hs
      | some next =>
        rw [isReferenceType_step (k + 1) ctx n next hs]
        apply ih
        rw [boundsChain, hs] at h
        exact h

/-- C5, witness: for `const p = {}; p` the indirection chain has depth
one, so fuel 2 finishes. -/
theorem c5_witness :
    (∃ b, isReferenceType 2 ctxConstObject (some (Node.identifier "p")) = .ok b) ∨
      isReferenceType 2 ctxConstObject (some (Node.identifier "p")) =
        .error .typeError :=
  c5_amended 1 ctxConstObject (some (Node.identifier "p")) rfl

/-- C6, counterexample: the claim says only regex literals, `new
RegExp(...)` constructions and function literals are sensitive to the
configuration, but an identifier — none of those shapes — changes
verdict with `canFillWithRegexp` when the initializer of its fixed
binding is a regex literal (`const p = /pattern/; p`). -/
theorem c6_counterexample :
    isReferenceType 2 ctxRegexDefault (some (Node.identifier "p")) = .ok false ∧
      isReferenceType 2 ctxRegexStrict (some (Node.identifier "p")) = .ok true :=
  ⟨rfl, rfl⟩

/-- C6, amended: for every node that is not a regex literal, not a
`new RegExp(...)` construction, not a function or arrow-function
literal, and also not an identifier (identifiers inherit configuration
sensitivity from the initializer of their binding), the verdict is identical
under every pair of configurations over the same scope analysis. -/
theorem c6_amended (f : Nat) (gs : Node → Scope) (o1 o2 : Options) (node : Node)
    (h1 : isRegexLiteral node = false)
    (h2 : isNewRegexp node = false)
    (h3 : isFunction node = false)
    (h4 : node.name? = none) :
    isReferenceType (f + 1) ⟨gs, o1⟩ (some node) =
      isReferenceType (f + 1) ⟨gs, o2⟩ (some node) := by
  cases node with
  | literal r =>
    simp only [isRegexLiteral] at h1
    subst h1
    simp [isReferenceType, isRegexLiteral]
  | templateLiteral es => rfl
  | identifier s => simp [Node.name?] at h4
  | functionExpression => simp [isFunction] at h3
  | arrowFunctionExpression => simp [isFunction] at h3
  | objectExpression => simp [isReferenceType, isSymbolCall, isFunction, isNewRegexp]
  | arrayExpression => simp [isReferenceType, isSymbolCall, isFunction, isNewRegexp]
  | newExpression cn ct => simp [isReferenceType, isSymbolCall, isFunction, h2]
  | callExpression cn => simp [isReferenceType, h2, h3]
  | classExpression => simp [isReferenceType, isSymbolCall, isFunction, isNewRegexp]
  | otherNode => simp [isReferenceType, isSymbolCall, isFunction, isNewRegexp]

/-- C6, witness: an object literal keeps the same verdict when both
toggles flip at once. -/
theorem c6_witness :
    isReferenceType 1 ⟨fun _ => ⟨[]⟩, {}⟩ (some Node.objectExpression) =
      isReferenceType 1
        ⟨fun _ => ⟨[]⟩, { canFillWithFunction := false, canFillWithRegexp := false }⟩
        (some Node.objectExpression) :=
  c6_amended 0 (fun _ => ⟨[]⟩) {}
    { canFillWithFunction := false, canFillWithRegexp := false }
    Node.objectExpression rfl rfl rfl rfl

/-- C7: a regex literal and a `new RegExp(...)` construction both
classify value-type exactly when `canFillWithRegexp` is true (its
default) and reference-type when it is false, under any scope analysis;
in particular the two forms always agree. -/
theorem c7_regex_config (f : Nat) (ctx : Context) (t : String) :
    isReferenceType (f + 1) ctx (some (Node.literal true)) =
        .ok !ctx.options.canFillWithRegexp ∧
      isReferenceType (f + 1) ctx (some (Node.newExpression (some "RegExp") t)) =
        .ok !ctx.options.canFillWithRegexp := by
  cases h : ctx.options.canFillWithRegexp <;>
    simp [isReferenceType, isRegexLiteral, isSymbolCall, isFunction, isNewRegexp, h]

/-- C8: a function literal and an arrow-function literal both classify
value-type exactly when `canFillWithFunction` is true (its default) and
reference-type when it is false, under any scope analysis. -/
theorem c8_function_config (f : Nat) (ctx : Context) :
    isReferenceType (f + 1) ctx (some Node.functionExpression) =
        .ok !ctx.options.canFillWithFunction ∧
      isReferenceType (f + 1) ctx (some Node.arrowFunctionExpression) =
        .ok !ctx.options.canFillWithFunction := by
  cases h : ctx.options.canFillWithFunction <;>
    simp [isReferenceType, isSymbolCall, isFunction, isNewRegexp, h]

/-- C9: an absent node, every non-regex literal (the source never reads
the value of a literal, so this covers number, string, boolean, null,
bigint and undefined alike), and every template literal — whatever its
interpolated sub-expressions — classify value-type under every
configuration and scope analysis. -/
theorem c9_value_types (f : Nat) (ctx : Context) (exprs : List Node) :
    isReferenceType (f + 1) ctx none = .ok false ∧
      isReferenceType (f + 1) ctx (some (Node.literal false)) = .ok false ∧
      isReferenceType (f + 1) ctx (some (Node.templateLiteral exprs)) = .ok false := by
  refine ⟨rfl, ?_, rfl⟩
  simp [isReferenceType, isRegexLiteral]

/-- C10: the not-found half of the claim holds — an identifier whose
name is missing from the variable list of its own scope (its declaration
living only in an enclosing scope) classifies value-type — but when the
first definition of the matching variable is absent (`defs` empty) the code
throws a `TypeError` instead of returning value-type: the optional chain
in `variable?.defs[0].node` does not guard `defs[0]` (the earlier
in-tree revision guards exactly this with `defs[0]?.node`). -/
theorem c10_eval :
    isReferenceType 1 ctxOuterOnly (some (Node.identifier "z")) = .ok false ∧
      isReferenceType 1 ctxEmptyDefsY (some (Node.identifier "y")) =
        .error .typeError := ⟨rfl, rfl⟩

end NoArrayFill
